import Mathlib

/-!
Verification of the state-synchronization and action-verification bridge of a
Yandex smart-home cloud function against its natural-language specification.

The development shallowly embeds the relevant program fragments:

- the Telemetry Cache and its writer callback, from
  ServerlessMQTTClient in mqtt_client.py (dictionary device_states,
  written under state_lock by the message callback, read by the wait
  primitives and by get_cached_state);
- the wait primitives wait_for_state and wait_for_state_change from
  mqtt_client.py, and the freshness-bounded read get_device_state from
  MQTTStateManager in mqtt_manager.py;
- the outbound command dispatch publish_command_to_api from
  device_manager.py (identical in index.py);
- the per-capability action-verification protocol of
  DeviceManager.get_action_response in device_manager.py and of
  SmartHomeHandler.handle_action in index.py;
- the per-device query-state handling of DeviceManager.get_query_response
  in device_manager.py.

Time model for the blocking waits: the source loops polling the shared
cache roughly every 0.1 seconds while the elapsed time is below the
timeout, with a background MQTT delivery thread writing into the cache
concurrently. We embed one such loop as a function over the list of cache
snapshots the loop observes, one snapshot per poll iteration; the length
of the list is the number of poll iterations the timeout admits (a
timeout of 0 admits no iterations, because the loop guard elapsed less
than timeout fails at once). This makes the interleaving with the
background writer an explicit parameter and keeps every definition
executable.
-/

set_option autoImplicit false

/-- Decoded JSON leaf values as they occur in telemetry payloads. Telemetry
payloads in this system are flat JSON objects whose values are strings
(state tokens such as "on" and "off"), numbers, booleans or null; nested
substructure is not inspected anywhere in the program and is abstracted
away. -/
inductive JVal where
  | str (s : String)
  | num (n : Int)
  | bool (b : Bool)
  | null
deriving DecidableEq, Repr

/-- A decoded JSON object: the result of json.loads on a telemetry payload
when it succeeds and yields a dictionary. -/
abbrev JObj := List (String × JVal)

/-- Python dict .get seen through json.loads: the value stored under the key,
with a JSON null collapsed to none exactly as Python maps JSON null to None
and .get returns None for a missing key. Python dicts keep the last value
written for a key, hence the lookup on the reversed list. -/
def JObj.pyGet (o : JObj) (k : String) : Option JVal :=
  match o.reverse.lookup k with
  | some JVal.null => none
  | some v => some v
  | none => none

/-- Device State Record: the value stored in device_states by the message
callback in mqtt_client.py, built as a dict with keys state (the decoded
payload field, possibly absent), timestamp (arrival time) and raw_payload
(the whole decoded payload). -/
structure StateRecord where
  state : Option JVal
  timestamp : Nat
  rawPayload : JObj
deriving DecidableEq, Repr

/-- The Telemetry Cache: the device_states dictionary mapping an MQTT device
identifier to its last stored record. -/
abbrev Cache := String → Option StateRecord

/-- The cache at process start: no device has reported yet. -/
def emptyCache : Cache := fun _ => none

/-- The cache write performed by the message callback:
device_states with device_id mapped to record, replacing any previous
record for that device as a whole and leaving every other device
untouched. -/
def put (c : Cache) (d : String) (r : StateRecord) : Cache :=
  fun x => if x = d then some r else c x

/-- A sequence of cache writes applied in order, modelling later telemetry
arrivals. -/
def apply_puts (c : Cache) (us : List (String × StateRecord)) : Cache :=
  us.foldl (fun acc p => put acc p.1 p.2) c

/-- ServerlessMQTTClient.get_cached_state from mqtt_client.py: return the
cached record for the device if present. The source takes no age bound:
the record is returned whatever its timestamp. -/
def get_cached_state (c : Cache) (d : String) : Option StateRecord :=
  c d

/-- MQTTStateManager.get_device_state from mqtt_manager.py: the
freshness-bounded cached read. Returns the record only when its age,
now minus the stored timestamp, is at most maxAge; an older record or a
missing record yields none. -/
def get_device_state (c : Cache) (now : Nat) (d : String) (maxAge : Nat) :
    Option StateRecord :=
  match c d with
  | some r => if now - r.timestamp ≤ maxAge then some r else none
  | none => none

/-- Python substring membership, pat in s, over the character lists of the
two strings. -/
def py_str_contains (pat : List Char) : List Char → Bool
  | [] => pat.isEmpty
  | c :: rest => pat.isPrefixOf (c :: rest) || py_str_contains pat rest

/-- ServerlessMQTTClient._on_message from mqtt_client.py (the identical
callback appears in mqtt_manager.py). The payload argument is the result
of decoding the wire bytes: none when json.loads raises or when the
decoded value is not a dictionary (in either case the except handler logs
the error and the callback returns with the cache untouched). When the
topic contains the substring /state, the device identifier is the second
slash-separated component of the topic and a whole new record is stored
for it; otherwise the message is ignored. -/
def on_message (now : Nat) (states : Cache) (topic : String) (payload : Option JObj) :
    Cache :=
  match payload with
  | none => states
  | some p =>
    if py_str_contains "/state".toList topic.toList then
      match (topic.splitOn "/").get? 1 with
      | some deviceId => put states deviceId ⟨p.pyGet "state", now, p⟩
      | none => states
    else states

/-- ServerlessMQTTClient.wait_for_state from mqtt_client.py, over the list of
cache snapshots observed at successive poll iterations: return the record
for the device at the first poll at which one is present, none if every
admitted poll finds nothing. -/
def wait_for_state : List Cache → String → Option StateRecord
  | [], _ => none
  | c :: rest, d =>
    match c d with
    | some r => some r
    | none => wait_for_state rest d

/-- wait_for_state with its timeout made explicit: the loop guard elapsed
less than timeout admits one poll iteration per elapsed tick below the
timeout, so a timeout of t ticks admits polls 0 to t-1 and a timeout of 0
admits none. -/
def wait_for_state_timed (timeout : Nat) (snaps : Nat → Cache) (d : String) :
    Option StateRecord :=
  wait_for_state ((List.range timeout).map snaps) d

/-- ServerlessMQTTClient.wait_for_state_change from mqtt_client.py, over the
snapshots observed at successive polls: return the record for the device
at the first poll at which a record is present whose state field differs
from the given previous state, none if no admitted poll finds such a
record. A poll that finds a record whose state field equals the previous
state keeps waiting. -/
def wait_for_state_change : List Cache → String → Option JVal → Option StateRecord
  | [], _, _ => none
  | c :: rest, d, prev =>
    match c d with
    | some r => if r.state ≠ prev then some r else wait_for_state_change rest d prev
    | none => wait_for_state_change rest d prev

/-- Python comparison of a stored state field against an expected state
token, state_data.get(..) == expected: true exactly when the stored value
is the JSON string equal to expected; a missing value, a null, a number or
a boolean never equals a Python string. -/
def state_matches (v : Option JVal) (expected : String) : Bool :=
  match v with
  | some (JVal.str s) => s == expected
  | _ => false

/-- Python str formatting of a stored state field as interpolated into an
error message: None prints as the token None, a string prints verbatim,
numbers and booleans print in Python notation. -/
def py_str_of_state : Option JVal → String
  | none => "None"
  | some (JVal.str s) => s
  | some (JVal.num n) => toString n
  | some (JVal.bool true) => "True"
  | some (JVal.bool false) => "False"
  | some JVal.null => "None"

/-- The wire command string for a desired on-off value: command is the
string 1 when the desired capability value is truthy and 0 otherwise. -/
def command_of (desired : Bool) : String :=
  if desired then "1" else "0"

/-- The expected reported state token for a desired on-off value: on when
the desired capability value is truthy, off otherwise. -/
def expected_of (desired : Bool) : String :=
  if desired then "on" else "off"

/-- Outcome of processing one on-off capability of one action request: the
action_result attached to the capability response, either status DONE or
status ERROR with an error code and message. -/
inductive ActionCapResult where
  | done
  | error (errorCode : String) (errorMessage : String)
deriving DecidableEq, Repr

/-- Outcome of one DeviceManager.get_action_response capability run as the
caller observes it: ok wraps the capability entry the run appends and
returns, typeError marks a run that raises. Every error branch of the
run calls error_util.get_error_response with two positional arguments
(device_manager.py lines 187, 195, 205, 212, 234 and 238) while
error_util.py declares a single parameter, so in the program each such
branch raises TypeError at the call before any error entry is built, and
the exception escapes the verifier uncaught. -/
inductive RunResult where
  | ok (result : ActionCapResult)
  | typeError
deriving DecidableEq, Repr

/-- Environment of one action-verification run for one device: the outcome
of each outbound dispatch the verifier may attempt, and the cache
snapshots each wait primitive observes. baselineTrace are the polls of the
pre-action wait_for_state (timeout T1), changeTrace the polls of the
post-command wait_for_state_change (timeout T2), fallbackCache the cache
at the moment of the fallback get_cached_state read. -/
structure ActionEnv where
  publishStateBefore : Bool
  baselineTrace : List Cache
  publishCommand : Bool
  publishStateAfter : Bool
  changeTrace : List Cache
  fallbackCache : Cache

/-- The post-command observation shared verbatim by device_manager.py and
index.py: wait for a state change away from prev; if that times out, fall
back to get_cached_state, which carries no age bound. -/
def post_action_read (env : ActionEnv) (d : String) (prev : Option JVal) :
    Option StateRecord :=
  match wait_for_state_change env.changeTrace d prev with
  | some r => some r
  | none => get_cached_state env.fallbackCache d

/-- DeviceManager.get_action_response from device_manager.py, the body
processing a single on-off capability of a single pusher device: the
result is the run outcome together with the ordered list of command
strings handed to publish_command_to_api during the run. The only path
that returns normally is the full verify-success path ending in DONE:
every error branch evaluates its message f-string and then calls
get_error_response with two positional arguments against the
one-parameter signature in error_util.py, so the branch raises TypeError
there instead of appending a structured error entry; the branch outcome
is therefore RunResult.typeError and the composed message is discarded.
The raise happens at the branch point, so a run whose pre-action state
request fails or whose baseline wait yields no record still never
dispatches the action command. -/
def get_action_response_run (env : ActionEnv) (d : String) (desired : Bool) :
    RunResult × List String :=
  if env.publishStateBefore then
    match wait_for_state env.baselineTrace d with
    | none => (RunResult.typeError, ["state"])
    | some currentStateData =>
      if env.publishCommand then
        if env.publishStateAfter then
          match post_action_read env d currentStateData.state with
          | some stateAfterData =>
            if state_matches stateAfterData.state (expected_of desired) then
              (RunResult.ok ActionCapResult.done, ["state", command_of desired, "state"])
            else
              (RunResult.typeError, ["state", command_of desired, "state"])
          | none => (RunResult.typeError, ["state", command_of desired, "state"])
        else (RunResult.typeError, ["state", command_of desired, "state"])
      else (RunResult.typeError, ["state", command_of desired])
  else (RunResult.typeError, ["state"])

/-- SmartHomeHandler.handle_action from index.py, the body processing a
single on-off capability of a single pusher device, with the same result
convention as get_action_response_run. Unlike device_manager.py, this
draft ignores the outcome of the pre-action state request and of the
baseline wait: current_state is simply none when no baseline record
arrived, and the action command is dispatched regardless. The result of
the post-action state request is also ignored. -/
def handle_action_run (env : ActionEnv) (d : String) (desired : Bool) :
    ActionCapResult × List String :=
  let currentState : Option JVal :=
    (wait_for_state env.baselineTrace d).bind StateRecord.state
  if env.publishCommand then
    match post_action_read env d currentState with
    | some stateAfterData =>
      if state_matches stateAfterData.state (expected_of desired) then
        (ActionCapResult.done, ["state", command_of desired, "state"])
      else
        (ActionCapResult.error "DEVICE_UNREACHABLE"
           ("Expected \x27" ++ expected_of desired ++ "\x27 but got \x27" ++
              py_str_of_state stateAfterData.state ++ "\x27"),
         ["state", command_of desired, "state"])
    | none =>
      (ActionCapResult.error "DEVICE_UNREACHABLE" "Failed to get state after action",
       ["state", command_of desired, "state"])
  else
    (ActionCapResult.error "DEVICE_UNREACHABLE" "Failed to send command",
     ["state", command_of desired])

/-- Outcome of processing one device of a query request in
DeviceManager.get_query_response from device_manager.py: either a
capability list reporting the on-off value, or an error entry. -/
inductive QueryResp where
  | caps (value : Bool)
  | error (errorCode : String) (errorMessage : String)
deriving DecidableEq, Repr

/-- DeviceManager.get_query_response from device_manager.py, the body
processing one pusher device: dispatch a state request; on dispatch
failure report DEVICE_UNREACHABLE; otherwise wait for a record and either
report the on-off value computed from its state field or report that the
device did not respond. -/
def query_device_response (publishOk : Bool) (stateData : Option StateRecord) :
    QueryResp :=
  if publishOk then
    match stateData with
    | some r => QueryResp.caps (state_matches r.state "on")
    | none => QueryResp.error "DEVICE_UNREACHABLE" "Device did not respond to state request"
  else
    QueryResp.error "DEVICE_UNREACHABLE" "Failed to send state request to device"

/-- Result of the requests.post call inside publish_command_to_api: either
the transport returned a response with a status code and body text, or it
raised an exception carrying a message. -/
inductive HttpResult where
  | resp (status : Nat) (text : String)
  | exn (message : String)
deriving DecidableEq, Repr

/-- Outcome of publish_command_to_api as seen by its caller: the boolean
return value together with the message logged on the path taken, success
corresponding to returning True and failure to returning False. -/
inductive PublishOutcome where
  | success (infoMessage : String)
  | failure (errorMessage : String)
deriving DecidableEq, Repr

/-- The boolean value publish_command_to_api actually returns. -/
def PublishOutcome.toBool : PublishOutcome → Bool
  | PublishOutcome.success _ => true
  | PublishOutcome.failure _ => false

/-- Whether message.encode with the ascii codec succeeds: every character
below code point 128. -/
def ascii_encodable (s : String) : Bool :=
  s.toList.all (fun ch => ch.toNat < 128)

/-- DeviceManager.publish_command_to_api from device_manager.py (the same
function appears in index.py). Everything in the try body that can raise
is made explicit: the device table lookup (KeyError when the device is
unknown), the ascii encoding of the command, the access-token lookup on
the auth context, and the transport call itself; the except handler turns
any of these into the boolean failure with a logged message, and a
response with a non-200 status code is likewise reported as failure. -/
def publish_command_to_api (devices : String → Option String)
    (deviceId message : String) (token : Option String) (http : HttpResult) :
    PublishOutcome :=
  match devices deviceId with
  | none =>
    PublishOutcome.failure ("Error publishing API command to " ++ deviceId ++ ": KeyError")
  | some _mqttDeviceId =>
    if ascii_encodable message then
      match token with
      | none =>
        PublishOutcome.failure
          ("Error publishing API command to " ++ deviceId ++ ": missing access token")
      | some _iamToken =>
        match http with
        | HttpResult.exn e =>
          PublishOutcome.failure ("Error publishing API command to " ++ deviceId ++ ": " ++ e)
        | HttpResult.resp status text =>
          if status == 200 then
            PublishOutcome.success
              ("Successfully sent " ++ message ++ " to device " ++ deviceId)
          else
            PublishOutcome.failure
              ("Failed to send command: " ++ toString status ++ " - " ++ text)
    else
      PublishOutcome.failure
        ("Error publishing API command to " ++ deviceId ++ ": UnicodeEncodeError")

/-! Concrete runs used to evaluate the embedded program on explicit inputs. -/

/-- A record reporting state off, as stored after an off telemetry message. -/
def off_record : StateRecord := ⟨some (JVal.str "off"), 10, [("state", JVal.str "off")]⟩

/-- A record reporting state on, as stored after an on telemetry message. -/
def on_record : StateRecord := ⟨some (JVal.str "on"), 12, [("state", JVal.str "on")]⟩

/-- A record stored from a telemetry payload that carries no state field at
all: the callback stores state none. -/
def no_state_record : StateRecord := ⟨none, 5, [("power", JVal.str "low")]⟩

/-- A record reporting state on whose arrival timestamp is 0, used to discuss
staleness of the fallback read. -/
def stale_record : StateRecord := ⟨some (JVal.str "on"), 0, [("state", JVal.str "on")]⟩

/-- A cache holding only the off record for device dev. -/
def off_cache : Cache := put emptyCache "dev" off_record

/-- A cache holding only the on record for device dev. -/
def on_cache : Cache := put emptyCache "dev" on_record

/-- A cache holding only the stateless record for device dev. -/
def no_state_cache : Cache := put emptyCache "dev" no_state_record

/-- A cache holding only the stale on record for device dev. -/
def stale_cache : Cache := put emptyCache "dev" stale_record

/-- A cache holding the on record at timestamp 7 for device dev. -/
def c4_record : StateRecord := ⟨some (JVal.str "on"), 7, [("state", JVal.str "on")]⟩

/-- Cache for the freshness-bound evaluation. -/
def c4_cache : Cache := put emptyCache "dev" c4_record

/-- Run environment in which every dispatch succeeds but no telemetry at all
ever arrives: every wait polls an empty cache. -/
def c1_env : ActionEnv := ⟨true, [emptyCache, emptyCache], true, true, [], emptyCache⟩

/-- Run environment with a successful pre-action dispatch and a baseline wait
that admits no poll with a record. -/
def c1w_env : ActionEnv := ⟨true, [], true, true, [], emptyCache⟩

/-- Run environment in which the only telemetry ever observed is the stale
pre-action record: the baseline wait, the change wait and the fallback read
all see the unchanged stale cache. -/
def c2_env : ActionEnv := ⟨true, [stale_cache], true, true, [stale_cache, stale_cache], stale_cache⟩

/-- Run environment where the baseline is off, the change wait admits no
polls, and the fallback read sees an on record. -/
def c2w_env : ActionEnv := ⟨true, [off_cache], true, true, [], on_cache⟩

/-- Run environment where the baseline is off and the change wait observes an
on record at its first poll: the successful-verification run. -/
def c3_match_env : ActionEnv := ⟨true, [off_cache], true, true, [on_cache], emptyCache⟩

/-- Run environment realizing the mismatch scenario of the spec: baseline
off, no state-change telemetry during the change wait, fallback read
still returning the unchanged off record while the desired state is on. -/
def c3_mismatch_env : ActionEnv := ⟨true, [off_cache], true, true, [off_cache], off_cache⟩

/-- Poll snapshots of a cache that never receives any record. -/
def empty_snaps : Nat → Cache := fun _ => emptyCache

/-- A device table knowing only the device pusher. -/
def c9_devices : String → Option String :=
  fun x => if x = "pusher" then some "mq-1" else none

/-! Helper lemmas shared by the claim theorems. -/

/-- A wait over snapshots none of which holds a record for the device times
out with none. -/
theorem wait_for_state_none_of_all_none (snaps : List Cache) (d : String)
    (h : ∀ c ∈ snaps, c d = none) : wait_for_state snaps d = none := by
  induction snaps with
  | nil => rfl
  | cons c rest ih =>
    have hc : c d = none := h c (List.mem_cons_self c rest)
    simp only [wait_for_state, hc]
    exact ih fun x hx => h x (List.mem_cons_of_mem c hx)

/-- A record returned by the change wait differs from the previous value and
was present in one of the observed snapshots. -/
theorem wait_for_state_change_some_spec (snaps : List Cache) (d : String)
    (prev : Option JVal) (r : StateRecord)
    (h : wait_for_state_change snaps d prev = some r) :
    r.state ≠ prev ∧ ∃ c, c ∈ snaps ∧ c d = some r := by
  induction snaps with
  | nil => exact absurd h (by simp [wait_for_state_change])
  | cons c rest ih =>
    rw [wait_for_state_change] at h
    cases hc : c d with
    | none =>
      rw [hc] at h
      dsimp only at h
      obtain ⟨hne, x, hx, hxd⟩ := ih h
      exact ⟨hne, x, List.mem_cons_of_mem c hx, hxd⟩
    | some r0 =>
      rw [hc] at h
      dsimp only at h
      by_cases hne : r0.state = prev
      · rw [if_neg (not_not_intro hne)] at h
        obtain ⟨hne2, x, hx, hxd⟩ := ih h
        exact ⟨hne2, x, List.mem_cons_of_mem c hx, hxd⟩
      · rw [if_pos hne] at h
        cases h
        exact ⟨hne, c, List.mem_cons_self c rest, hc⟩

/-- The change wait times out with none exactly when every observed snapshot
either holds no record for the device or holds one whose state equals the
previous value. -/
theorem wait_for_state_change_none_iff (snaps : List Cache) (d : String)
    (prev : Option JVal) :
    wait_for_state_change snaps d prev = none ↔
      ∀ c ∈ snaps, ∀ r, c d = some r → r.state = prev := by
  induction snaps with
  | nil => simp [wait_for_state_change]
  | cons c rest ih =>
    rw [wait_for_state_change]
    cases hc : c d with
    | none =>
      dsimp only
      rw [ih]
      constructor
      · intro h x hx r hr
        rcases List.mem_cons.1 hx with rfl | hx2
        · rw [hc] at hr; cases hr
        · exact h x hx2 r hr
      · intro h x hx r hr
        exact h x (List.mem_cons_of_mem c hx) r hr
    | some r0 =>
      dsimp only
      by_cases hne : r0.state = prev
      · rw [if_neg (not_not_intro hne), ih]
        constructor
        · intro h x hx r hr
          rcases List.mem_cons.1 hx with rfl | hx2
          · rw [hc] at hr; cases hr; exact hne
          · exact h x hx2 r hr
        · intro h x hx r hr
          exact h x (List.mem_cons_of_mem c hx) r hr
      · rw [if_pos hne]
        constructor
        · intro h; cases h
        · intro h
          exact absurd (h c (List.mem_cons_self c rest) r0 hc) hne

/-- A sequence of cache writes that never touches the device leaves its
entry unchanged. -/
theorem apply_puts_other (us : List (String × StateRecord)) (c : Cache) (d : String)
    (h : ∀ p ∈ us, p.1 ≠ d) : apply_puts c us d = c d := by
  induction us generalizing c with
  | nil => rfl
  | cons p rest ih =>
    have hp : p.1 ≠ d := h p (List.mem_cons_self p rest)
    have hstep : put c p.1 p.2 d = c d := by
      have hd : ¬ d = p.1 := fun hd => hp (Eq.symm hd)
      simp only [put, if_neg hd]
    calc apply_puts c (p :: rest) d
        = apply_puts (put c p.1 p.2) rest d := rfl
      _ = put c p.1 p.2 d := ih (put c p.1 p.2) fun x hx => h x (List.mem_cons_of_mem p hx)
      _ = c d := hstep

/-! Claim theorems. -/

/-- Claim C4: for every device with a cached record and every max age bound,
the freshness-bounded cached read get_device_state returns the record when
its age now minus timestamp is at most the bound, returns none when the
age exceeds the bound, and returns none when no record exists. -/
theorem get_device_state_freshness (c : Cache) (now : Nat) (d : String) (A : Nat) :
    (∀ r, c d = some r → now - r.timestamp ≤ A → get_device_state c now d A = some r) ∧
    (∀ r, c d = some r → now - r.timestamp > A → get_device_state c now d A = none) ∧
    (c d = none → get_device_state c now d A = none) := by
  refine ⟨?_, ?_, ?_⟩
  · intro r hr hage
    simp [get_device_state, hr, hage]
  · intro r hr hage
    simp [get_device_state, hr, Nat.not_le.mpr hage]
  · intro hr
    simp [get_device_state, hr]

/-- Witness for claim C4: the record stored at timestamp 7 is returned at
time 10 with bound 5, refused at time 100 with bound 5, and a device with
no record yields none. -/
theorem get_device_state_freshness_witness :
    get_device_state c4_cache 10 "dev" 5 = some c4_record ∧
    get_device_state c4_cache 100 "dev" 5 = none ∧
    get_device_state c4_cache 10 "missing" 5 = none := by
  refine ⟨?_, ?_, ?_⟩
  · exact (get_device_state_freshness c4_cache 10 "dev" 5).1 c4_record (by decide) (by decide)
  · exact (get_device_state_freshness c4_cache 100 "dev" 5).2.1 c4_record (by decide) (by decide)
  · exact (get_device_state_freshness c4_cache 10 "missing" 5).2.2 (by decide)

/-- Claim C5 (amended): wait_for_state_change returns the record at the
first poll whose cached state value for the device differs from the
previous value; any record it returns differs from the previous value and
was observed in the cache; and it returns none exactly when no admitted
poll observes a differing state value. When the previous value is none
this covers any record whose state value is not none; a record whose
state value is itself none does not end the wait. -/
theorem wait_for_state_change_spec (snaps : List Cache) (d : String)
    (prev : Option JVal) :
    (∀ c rest r, snaps = c :: rest → c d = some r → r.state ≠ prev →
      wait_for_state_change snaps d prev = some r) ∧
    (∀ r, wait_for_state_change snaps d prev = some r →
      r.state ≠ prev ∧ ∃ c, c ∈ snaps ∧ c d = some r) ∧
    (wait_for_state_change snaps d prev = none ↔
      ∀ c ∈ snaps, ∀ r, c d = some r → r.state = prev) := by
  refine ⟨?_, ?_, wait_for_state_change_none_iff snaps d prev⟩
  · intro c rest r hs hc hne
    subst hs
    rw [wait_for_state_change, hc]
    dsimp only
    rw [if_pos hne]
  · intro r h
    exact wait_for_state_change_some_spec snaps d prev r h

/-- Witness for claim C5: with previous value on, a poll observing an off
record ends the wait at once with that record. -/
theorem wait_for_state_change_spec_witness :
    wait_for_state_change [off_cache] "dev" (some (JVal.str "on")) = some off_record := by
  exact (wait_for_state_change_spec [off_cache] "dev" (some (JVal.str "on"))).1
    off_cache [] off_record rfl (by decide) (by decide)

/-- Counterexample for claim C5 as stated: with previous value none, a
record for the device exists in the cache at every poll, yet the wait
returns none, because the record was stored from a payload without a
state field and its state value none does not differ from the previous
value none. The claim asserts that with previous value none the existence
of any record ends the wait. -/
theorem wait_for_state_change_misses_stateless_record :
    get_cached_state no_state_cache "dev" = some no_state_record ∧
    wait_for_state_change [no_state_cache, no_state_cache, no_state_cache]
      "dev" none = none := by decide

/-- Claim C6: after put of a record for a device, get_cached_state returns
exactly that whole record, and it keeps returning it across any further
sequence of writes that only touches other devices. -/
theorem cache_put_get_until_next_put (c : Cache) (d : String) (r : StateRecord)
    (us : List (String × StateRecord)) (h : ∀ p ∈ us, p.1 ≠ d) :
    get_cached_state (put c d r) d = some r ∧
    get_cached_state (apply_puts (put c d r) us) d = some r := by
  have hbase : get_cached_state (put c d r) d = some r := by
    simp [get_cached_state, put]
  refine ⟨hbase, ?_⟩
  unfold get_cached_state
  rw [apply_puts_other us (put c d r) d h]
  exact hbase

/-- Witness for claim C6: a concrete put for device dev survives a later
write for a different device. -/
theorem cache_put_get_until_next_put_witness :
    get_cached_state (put emptyCache "dev" on_record) "dev" = some on_record ∧
    get_cached_state (apply_puts (put emptyCache "dev" on_record)
      [("other", off_record)]) "dev" = some on_record := by
  exact cache_put_get_until_next_put emptyCache "dev" on_record
    [("other", off_record)] (by decide)

/-- Claim C7: wait_for_state with timeout 0 returns none after zero polls
whatever the cache holds, and for every timeout whose polls never observe
a record for the device the wait expires with the modeled outcome none,
never a thrown fault (the embedded wait is a total function into an
option). -/
theorem wait_for_state_timeout_spec (snaps : Nat → Cache) (d : String) :
    wait_for_state_timed 0 snaps d = none ∧
    ∀ t : Nat, (∀ i, i < t → snaps i d = none) → wait_for_state_timed t snaps d = none := by
  constructor
  · rfl
  · intro t h
    apply wait_for_state_none_of_all_none
    intro c hc
    obtain ⟨i, hi, rfl⟩ := List.mem_map.1 hc
    exact h i (List.mem_range.1 hi)

/-- Witness for claim C7: on a cache that never receives a record, timeout 0
and timeout 5 both yield none. -/
theorem wait_for_state_timeout_spec_witness :
    wait_for_state_timed 0 empty_snaps "dev" = none ∧
    wait_for_state_timed 5 empty_snaps "dev" = none := by
  refine ⟨(wait_for_state_timeout_spec empty_snaps "dev").1, ?_⟩
  exact (wait_for_state_timeout_spec empty_snaps "dev").2 5 (fun i _ => rfl)

/-- Claim C8: a message whose payload does not decode as structured data is
dropped by the message callback: the Telemetry Cache is left exactly
unchanged (the callback is a total function, so no exception escapes into
caller-visible code), and consequently any caller polling the cache for
a device observes exactly what it would have observed without the
message, so it keeps waiting or times out. -/
theorem on_message_malformed_drops (now : Nat) (states : Cache) (topic : String)
    (snaps : List Cache) (d : String) :
    on_message now states topic none = states ∧
    wait_for_state (snaps.map fun c => on_message now c topic none) d =
      wait_for_state snaps d := by
  constructor
  · rfl
  · have hid : (fun c => on_message now c topic none) = id := funext fun c => rfl
    rw [hid, List.map_id]

/-- Claim C9: publish_command_to_api always returns a boolean-like outcome
and never raises (the embedding is a total function in which every step
of the try body that can raise is explicit): the outcome is always either
success or failure with a recorded message, a raised transport or
authentication exception collapses to the failure outcome, a transport
response with a non-200 status yields the failure return value, and the
call succeeds exactly when the device is known, the command is ascii
encodable, an access token is present and the transport answered with
status 200. -/
theorem publish_command_boolean_outcome (devices : String → Option String)
    (d m : String) (token : Option String) (http : HttpResult) :
    ((∃ s, publish_command_to_api devices d m token http = PublishOutcome.success s) ∨
     (∃ s, publish_command_to_api devices d m token http = PublishOutcome.failure s)) ∧
    (∀ e, http = HttpResult.exn e →
      (publish_command_to_api devices d m token http).toBool = false) ∧
    (∀ status text, http = HttpResult.resp status text → status ≠ 200 →
      (publish_command_to_api devices d m token http).toBool = false) ∧
    ((publish_command_to_api devices d m token http).toBool = true ↔
      (∃ mid, devices d = some mid) ∧ ascii_encodable m = true ∧
      token.isSome = true ∧ ∃ text, http = HttpResult.resp 200 text) := by
  refine ⟨?_, ?_, ?_, ?_⟩
  · cases h : publish_command_to_api devices d m token http with
    | success s => exact Or.inl ⟨s, rfl⟩
    | failure s => exact Or.inr ⟨s, rfl⟩
  · intro e he
    subst he
    cases hdev : devices d with
    | none => simp [publish_command_to_api, hdev, PublishOutcome.toBool]
    | some mid =>
      by_cases ha : ascii_encodable m = true
      · cases token with
        | none => simp [publish_command_to_api, hdev, ha, PublishOutcome.toBool]
        | some tok => simp [publish_command_to_api, hdev, ha, PublishOutcome.toBool]
      · simp [publish_command_to_api, hdev, ha, PublishOutcome.toBool]
  · intro status text he hne
    subst he
    cases hdev : devices d with
    | none => simp [publish_command_to_api, hdev, PublishOutcome.toBool]
    | some mid =>
      by_cases ha : ascii_encodable m = true
      · cases token with
        | none => simp [publish_command_to_api, hdev, ha, PublishOutcome.toBool]
        | some tok =>
          simp [publish_command_to_api, hdev, ha, hne, PublishOutcome.toBool]
      · simp [publish_command_to_api, hdev, ha, PublishOutcome.toBool]
  · constructor
    · intro htrue
      cases hdev : devices d with
      | none => simp [publish_command_to_api, hdev, PublishOutcome.toBool] at htrue
      | some mid =>
        by_cases ha : ascii_encodable m = true
        · cases token with
          | none => simp [publish_command_to_api, hdev, ha, PublishOutcome.toBool] at htrue
          | some tok =>
            cases http with
            | exn e => simp [publish_command_to_api, hdev, ha, PublishOutcome.toBool] at htrue
            | resp status text =>
              by_cases hs : status = 200
              · subst hs
                exact ⟨⟨mid, rfl⟩, ha, rfl, text, rfl⟩
              · simp [publish_command_to_api, hdev, ha, hs, PublishOutcome.toBool] at htrue
        · simp [publish_command_to_api, hdev, ha, PublishOutcome.toBool] at htrue
    · rintro ⟨⟨mid, hdev⟩, ha, htok, text, rfl⟩
      cases token with
      | none => simp at htok
      | some tok => simp [publish_command_to_api, hdev, ha, PublishOutcome.toBool]

/-- Witness for claim C9: with the concrete device table, a 500 response
yields the failure return value and a 200 response yields success. -/
theorem publish_command_boolean_outcome_witness :
    (publish_command_to_api c9_devices "pusher" "1" (some "tok")
      (HttpResult.resp 500 "err")).toBool = false ∧
    (publish_command_to_api c9_devices "pusher" "1" (some "tok")
      (HttpResult.resp 200 "ok")).toBool = true := by
  constructor
  · exact (publish_command_boolean_outcome c9_devices "pusher" "1" (some "tok")
      (HttpResult.resp 500 "err")).2.2.1 500 "err" rfl (by decide)
  · exact (publish_command_boolean_outcome c9_devices "pusher" "1" (some "tok")
      (HttpResult.resp 200 "ok")).2.2.2.mpr
      ⟨⟨"mq-1", by decide⟩, by decide, rfl, "ok", rfl⟩

/-- Claim C10: when a query obtains a state record for a device, the
reported on-off capability value is true exactly when the record stores
the state string on; any other stored value, a missing state field
included, reports the value false through the capability entry, not an
error entry. -/
theorem query_on_value_iff (r : StateRecord) :
    query_device_response true (some r) = QueryResp.caps (state_matches r.state "on") ∧
    (state_matches r.state "on" = true ↔ r.state = some (JVal.str "on")) := by
  refine ⟨rfl, ?_⟩
  cases hr : r.state with
  | none => simp [state_matches]
  | some v => cases v <;> simp [state_matches]

/-- Witness for claim C10: an on record reports true. -/
theorem query_on_value_iff_witness :
    query_device_response true (some on_record) = QueryResp.caps true := by
  have h := (query_on_value_iff on_record).1
  rw [h]
  decide

/-- Claim C1 (amended): in the device_manager.py verifier, when the
pre-action state request dispatch succeeds but no baseline record arrives
within the baseline wait, the run aborts at the no-baseline branch and
the action command is never handed to the dispatcher (the dispatched
command list is exactly the single state request); the run terminates
not with a structured no-baseline ERROR outcome but by raising TypeError
from the two-argument call to the one-parameter get_error_response at
device_manager.py line 195. The index.py draft of the verifier behaves
differently again, see the counterexample. -/
theorem get_action_response_no_baseline_aborts (env : ActionEnv) (d : String)
    (desired : Bool) (h1 : env.publishStateBefore = true)
    (h2 : wait_for_state env.baselineTrace d = none) :
    get_action_response_run env d desired = (RunResult.typeError, ["state"]) ∧
    command_of desired ∉ (get_action_response_run env d desired).2 := by
  have hrun : get_action_response_run env d desired =
      (RunResult.typeError, ["state"]) := by
    simp [get_action_response_run, h1, h2]
  refine ⟨hrun, ?_⟩
  rw [hrun]
  show command_of desired ∉ ["state"]
  cases desired <;> decide

/-- Witness for claim C1: a run with a successful pre-action dispatch and a
baseline wait admitting no polls raises at the no-baseline branch and
dispatches only the state request. -/
theorem get_action_response_no_baseline_aborts_witness :
    get_action_response_run c1w_env "dev" true = (RunResult.typeError, ["state"]) ∧
    command_of true ∉ (get_action_response_run c1w_env "dev" true).2 :=
  get_action_response_no_baseline_aborts c1w_env "dev" true rfl rfl

/-- Counterexample for claim C1 as stated: in the index.py draft of the
verifier, a run in which the pre-action state request dispatch succeeds
and no baseline telemetry arrives does not abort: the action command 1 is
dispatched anyway (the dispatched list below contains it), and the run
ends with a generic failed-to-get-state error rather than a no-baseline
error. The claim asserts the action command is never sent in such runs. -/
theorem handle_action_no_baseline_still_sends_command :
    c1_env.publishStateBefore = true ∧
    wait_for_state c1_env.baselineTrace "dev" = none ∧
    handle_action_run c1_env "dev" true =
      (ActionCapResult.error "DEVICE_UNREACHABLE" "Failed to get state after action",
        ["state", "1", "state"]) := by decide

/-- Claim C2 (amended): in the device_manager.py verifier, when the command
was sent successfully but the change wait returns none, the run falls
back to the cached read get_cached_state, which carries no freshness
bound: whatever record it yields, of any age, the run proceeds to the
verify comparison with that record state, reporting DONE when it matches
the desired value; when the fallback record does not match, and likewise
when the read yields none, the run does not terminate in a structured
ERROR outcome but raises TypeError from the two-argument
get_error_response calls at device_manager.py lines 234 and 238. -/
theorem fallback_read_unbounded (env : ActionEnv) (d : String) (desired : Bool)
    (cur : StateRecord)
    (h1 : env.publishStateBefore = true)
    (h2 : wait_for_state env.baselineTrace d = some cur)
    (h3 : env.publishCommand = true)
    (h4 : env.publishStateAfter = true)
    (h5 : wait_for_state_change env.changeTrace d cur.state = none) :
    (∀ r, get_cached_state env.fallbackCache d = some r →
      get_action_response_run env d desired =
        ((if state_matches r.state (expected_of desired) then
            RunResult.ok ActionCapResult.done
          else RunResult.typeError),
          ["state", command_of desired, "state"])) ∧
    (get_cached_state env.fallbackCache d = none →
      get_action_response_run env d desired =
        (RunResult.typeError, ["state", command_of desired, "state"])) := by
  constructor
  · intro r hr
    simp only [get_action_response_run, post_action_read, h1, h2, h3, h4, h5, hr, if_true]
    split <;> rfl
  · intro hn
    simp only [get_action_response_run, post_action_read, h1, h2, h3, h4, h5, hn, if_true]

/-- Witness for claim C2: with baseline off, an empty change wait and a
fallback cache holding an on record, the run verifies against the
fallback record and reports DONE. -/
theorem fallback_read_unbounded_witness :
    get_action_response_run c2w_env "dev" true =
      (RunResult.ok ActionCapResult.done, ["state", "1", "state"]) := by
  have h := (fallback_read_unbounded c2w_env "dev" true off_record rfl (by decide)
    rfl rfl (by decide)).1 on_record (by decide)
  rw [h]
  decide

/-- Counterexample for claim C2 as stated: a run in which the only record
the bridge ever held is the stale pre-action record with arrival
timestamp 0. The change wait times out, the fallback read returns that
record although at wall time 1000 its age exceeds any freshness bound
comparable to the configured change timeout of 2 seconds (the spec
demands a bound no larger than comparable to that timeout), and the run
confirms DONE from it. A record older than the bound is thus used as
confirmation, which the claim rules out. -/
theorem fallback_uses_stale_record :
    wait_for_state_change c2_env.changeTrace "dev" (some (JVal.str "on")) = none ∧
    get_cached_state c2_env.fallbackCache "dev" = some stale_record ∧
    1000 - stale_record.timestamp > 2 ∧
    get_action_response_run c2_env "dev" true =
      (RunResult.ok ActionCapResult.done, ["state", "1", "state"]) := by decide

/-- Claim C3: evaluation of both verifiers at the verify step. On a
matching observation (baseline off, desired on, post-command telemetry
on) both verifiers report DONE, as the claim states. At the mismatch
failing input (baseline off, desired on, post-command state still off,
the mismatch scenario of the spec) the index.py verifier terminates with
the claimed ERROR result whose message names both the expected and the
actual value, but the device_manager.py verifier raises TypeError from
the two-argument get_error_response call at device_manager.py lines
233-235 instead of returning the expected-vs-actual error entry it
builds the message for: the claim matches the evident intent and the
device_manager.py call site is a slip. -/
theorem verify_step_mismatch_type_error :
    get_action_response_run c3_match_env "dev" true =
      (RunResult.ok ActionCapResult.done, ["state", "1", "state"]) ∧
    handle_action_run c3_match_env "dev" true =
      (ActionCapResult.done, ["state", "1", "state"]) ∧
    get_action_response_run c3_mismatch_env "dev" true =
      (RunResult.typeError, ["state", "1", "state"]) ∧
    handle_action_run c3_mismatch_env "dev" true =
      (ActionCapResult.error "DEVICE_UNREACHABLE"
        "Expected \x27on\x27 but got \x27off\x27", ["state", "1", "state"]) := by decide
